import Mathlib

/-!
Shallow embedding of `ross/fluid_flow/fluid_flow_graphics.py`.

The module prepares renderable data from a `FluidFlow` object ("Flow State"):
curves for axial/angular pressure cuts, a polar (cylindrical) mesh with
rotor-body masking, and full pressure surfaces.  Numeric values are modelled
as real numbers (the Python code computes with floats; the spec treats them
as exact reals).  Plotly styling (colors, fonts, sizes, kwargs merging) is
presentation-only and out of scope per the spec; each plot function is
embedded as the data it hands to the renderer, wrapped in `Except` so that
the `ValueError` raised when no pressure matrix is available (the spec's
`MissingPressureDataError`) is explicit.
-/

/-- Error raised by pressure-dependent plot functions when neither the
numerical nor the analytical pressure matrix is available (the Python code
raises `ValueError("Must calculate the pressure matrix. ...")`; the spec
names this `MissingPressureDataError`). -/
inductive PlotError where
  | missingPressureData : PlotError
deriving DecidableEq

/-- Tag recording which pressure solution a produced curve or surface was
built from. -/
inductive PressureSource where
  | numerical
  | analytical
deriving DecidableEq

/-- The Flow State: the fields of a `FluidFlow` object read by
`fluid_flow_graphics.py`.  2-D arrays indexed `[z][theta]` are embedded as
functions `Nat → Nat → ℝ` together with the grid sizes `nz`, `ntheta`;
1-D arrays as `Nat → ℝ`. -/
structure FlowState where
  nz : Nat
  ntheta : Nat
  nradius : Nat
  dtheta : ℝ
  radius_rotor : ℝ
  radius_stator : ℝ
  attitude_angle : ℝ
  z_list : Nat → ℝ
  xre : Nat → Nat → ℝ
  yre : Nat → Nat → ℝ
  xri : Nat → Nat → ℝ
  yri : Nat → Nat → ℝ
  xi : ℝ
  yi : ℝ
  re : Nat → Nat → ℝ
  ri : Nat → Nat → ℝ
  gama : Nat → Nat → ℝ
  p_mat_numerical : Nat → Nat → ℝ
  p_mat_analytical : Nat → Nat → ℝ
  numerical_pressure_matrix_available : Bool
  analytical_pressure_matrix_available : Bool

/-- Embedding of `np.linspace(start, stop, num)`: `num` evenly spaced samples
over the closed interval `[start, stop]` (numpy's default `endpoint=True`),
sample `k` being `start + k * (stop - start) / (num - 1)`.  For `num = 1`
numpy returns `[start]`; here division by zero yields `0` in Lean, so the
formula also gives `start` at the only valid index `k = 0`. -/
noncomputable def linspace (start stop : ℝ) (num : Nat) : Nat → ℝ :=
  fun k => start + (k : ℝ) * (stop - start) / ((num : ℝ) - 1)

/-- Embedding of `np.amin` over the first `n` entries of `f`
(`amin f n = min (f 0) (min ... (f (n-1)))`).  `np.amin` of an empty array
raises; `amin f 0` is the junk value `f 0` and is never relied upon. -/
noncomputable def amin (f : Nat → ℝ) : Nat → ℝ
  | 0 => f 0
  | n + 1 => min (amin f n) (f n)

/-- One curve handed to the renderer: the trace source tag together with the
`x` and `y` data arrays (`go.Scatter(x=..., y=...)`). -/
structure Curve where
  src : PressureSource
  x : Nat → ℝ
  y : Nat → ℝ

/-- One 3-D surface handed to the renderer (`go.Surface(x=..., y=..., z=...)`):
grids indexed `[i][j]` with `i` ranging over the angular samples and `j` over
the axial samples, as produced by `np.meshgrid(z_list, gama[0])`. -/
structure Surface where
  src : PressureSource
  xgrid : Nat → Nat → ℝ
  ygrid : Nat → Nat → ℝ
  zgrid : Nat → Nat → ℝ

/-- Matrix transpose on the function embedding of 2-D arrays (`p_mat.T`). -/
def transposeM (M : Nat → Nat → ℝ) : Nat → Nat → ℝ :=
  fun i j => M j i

/-- Data of the `plot_eccentricity` figure: stator boundary `(xre[z], yre[z])`,
rotor boundary `(xri[z], yri[z])`, the eccentricity point `(xi, yi)` and the
origin `(0, 0)`. -/
structure EccentricityPlot where
  stator_x : Nat → ℝ
  stator_y : Nat → ℝ
  rotor_x : Nat → ℝ
  rotor_y : Nat → ℝ
  stator_center : ℝ × ℝ
  rotor_center : ℝ × ℝ

/-- Data of the `plot_shape` figure: `(z_list, re[:, theta])` and
`(z_list, ri[:, theta])`. -/
structure ShapePlot where
  stator_curve_x : Nat → ℝ
  stator_curve_y : Nat → ℝ
  rotor_curve_x : Nat → ℝ
  rotor_curve_y : Nat → ℝ

/-- Data of the `plot_pressure_theta_cylindrical` figure: the
`np.meshgrid(r, theta)` matrices, the filled value mesh `z_matrix`, the
angular-axis rotation offset, and the list of warnings emitted during the
call (the source contains no `warnings.warn` call, so this list is
constantly empty). -/
structure CylindricalMesh where
  r_matrix : Nat → Nat → ℝ
  theta_matrix : Nat → Nat → ℝ
  z_matrix : Nat → Nat → ℝ
  rotation : ℝ
  warnings : List String

/-- Embedding of `plot_eccentricity` (lines 52-98): reads only geometry
fields, never the pressure matrices or availability flags.  Wrapped in
`Except PlotError` for uniformity with the pressure plots; it always
succeeds. -/
def plot_eccentricity (s : FlowState) (z : Nat) : Except PlotError EccentricityPlot :=
  Except.ok
    { stator_x := s.xre z
      stator_y := s.yre z
      rotor_x := s.xri z
      rotor_y := s.yri z
      stator_center := (s.xi, s.yi)
      rotor_center := ((0 : ℝ), (0 : ℝ)) }

/-- Embedding of `plot_shape` (lines 290-312): reads only `z_list`, `re`,
`ri`; always succeeds. -/
def plot_shape (s : FlowState) (theta : Nat) : Except PlotError ShapePlot :=
  Except.ok
    { stator_curve_x := s.z_list
      stator_curve_y := fun z => s.re z theta
      rotor_curve_x := s.z_list
      rotor_curve_y := fun z => s.ri z theta }

/-- Curves added by `plot_pressure_z` (lines 183-212): one trace per
available pressure source — numerical `(z_list, p_mat_numerical[:, theta])`
first, then analytical `(z_list, p_mat_analytical[:, theta])`. -/
def pressureZCurves (s : FlowState) (theta : Nat) : List Curve :=
  (if s.numerical_pressure_matrix_available then
    [{ src := PressureSource.numerical
       x := s.z_list
       y := fun z => s.p_mat_numerical z theta }]
  else []) ++
  (if s.analytical_pressure_matrix_available then
    [{ src := PressureSource.analytical
       x := s.z_list
       y := fun z => s.p_mat_analytical z theta }]
  else [])

/-- Embedding of `plot_pressure_z` (lines 127-244): guard on the two
availability flags (lines 159-166), then one curve per available source. -/
def plot_pressure_z (s : FlowState) (theta : Nat) : Except PlotError (List Curve) :=
  if !s.numerical_pressure_matrix_available && !s.analytical_pressure_matrix_available then
    Except.error PlotError.missingPressureData
  else
    Except.ok (pressureZCurves s theta)

/-- Curves added by `plot_pressure_theta` (lines 403-431): an `if/elif`
chain, so exactly one curve is produced — numerical
`(gama[z], p_mat_numerical[z])` when available, otherwise analytical
`(gama[z], p_mat_analytical[z])`. -/
def pressureThetaCurves (s : FlowState) (z : Nat) : List Curve :=
  if s.numerical_pressure_matrix_available then
    [{ src := PressureSource.numerical
       x := s.gama z
       y := s.p_mat_numerical z }]
  else if s.analytical_pressure_matrix_available then
    [{ src := PressureSource.analytical
       x := s.gama z
       y := s.p_mat_analytical z }]
  else []

/-- Embedding of `plot_pressure_theta` (lines 347-460): guard on the two
availability flags (lines 379-386), then the `if/elif` curve selection. -/
def plot_pressure_theta (s : FlowState) (z : Nat) : Except PlotError (List Curve) :=
  if !s.numerical_pressure_matrix_available && !s.analytical_pressure_matrix_available then
    Except.error PlotError.missingPressureData
  else
    Except.ok (pressureThetaCurves s z)

/-- Pressure-matrix selection of `plot_pressure_theta_cylindrical`
(lines 509-518): the requested source when available, otherwise the other
one. -/
def selectPMat (s : FlowState) (from_numerical : Bool) : Nat → Nat → ℝ :=
  if from_numerical then
    if s.numerical_pressure_matrix_available then s.p_mat_numerical
    else s.p_mat_analytical
  else
    if s.analytical_pressure_matrix_available then s.p_mat_analytical
    else s.p_mat_numerical

/-- Radial samples of the cylindrical plot (lines 520-524):
`np.linspace(radius_rotor, radius_stator, nradius)`. -/
noncomputable def cylR (s : FlowState) : Nat → ℝ :=
  linspace s.radius_rotor s.radius_stator s.nradius

/-- Angular samples of the cylindrical plot before degree conversion
(lines 525-527): `np.linspace(0, 2π + dtheta/2, ntheta)`. -/
noncomputable def cylThetaRaw (s : FlowState) : Nat → ℝ :=
  linspace 0 (2 * Real.pi + s.dtheta / 2) s.ntheta

/-- Angular samples after the in-place degree conversion
`theta *= 180 / np.pi` (line 528). -/
noncomputable def cylThetaDeg (s : FlowState) (i : Nat) : ℝ :=
  cylThetaRaw s i * (180 / Real.pi)

/-- Rotor inner boundary at axial index `z` and angular index `i`
(lines 537-540): `np.sqrt(xri[z][i]² + yri[z][i]²)`. -/
noncomputable def innerRadius (s : FlowState) (z i : Nat) : ℝ :=
  Real.sqrt (s.xri z i * s.xri z i + s.yri z i * s.yri z i)

/-- Value mesh of the cylindrical plot (lines 530-545).  `z_matrix` starts
as `np.zeros((ntheta, nradius))`; the loops run exactly over `i < ntheta`,
`j < nradius` (the `else 0` branch represents the array extent).  A cell
whose radial sample `r[j]` lies strictly inside the rotor boundary is
skipped (`continue`), keeping value `0`; otherwise it receives
`pressure_along_theta[i] - min_pressure + 0.01`. -/
noncomputable def cylZMatrix (s : FlowState) (z : Nat) (from_numerical : Bool) :
    Nat → Nat → ℝ :=
  fun i j =>
    if i < s.ntheta ∧ j < s.nradius then
      if cylR s j < innerRadius s z i then 0
      else
        selectPMat s from_numerical z i -
          amin (selectPMat s from_numerical z) s.ntheta + 0.01
    else 0

/-- The data assembled by `plot_pressure_theta_cylindrical` past its guard
(lines 509-590): `np.meshgrid(r, theta)` gives `r_matrix[i][j] = r[j]` and
`theta_matrix[i][j] = theta_deg[i]`; the value mesh is `cylZMatrix`; the
angular-axis rotation is `-90 - attitude_angle * 180 / π` (line 583); the
function body contains no `warnings.warn` call, so `warnings` is `[]`. -/
noncomputable def cylMesh (s : FlowState) (z : Nat) (from_numerical : Bool) :
    CylindricalMesh where
  r_matrix := fun _ j => cylR s j
  theta_matrix := fun i _ => cylThetaDeg s i
  z_matrix := cylZMatrix s z from_numerical
  rotation := -90 - s.attitude_angle * 180 / Real.pi
  warnings := []

/-- Embedding of `plot_pressure_theta_cylindrical` (lines 463-591): guard on
the two availability flags (lines 501-508), then the mesh assembly. -/
noncomputable def plot_pressure_theta_cylindrical (s : FlowState) (z : Nat)
    (from_numerical : Bool) : Except PlotError CylindricalMesh :=
  if !s.numerical_pressure_matrix_available && !s.analytical_pressure_matrix_available then
    Except.error PlotError.missingPressureData
  else
    Except.ok (cylMesh s z from_numerical)

/-- The numerical surface of `plot_pressure_surface` (lines 634-656):
`z, theta = np.meshgrid(z_list, gama[0])` gives `xgrid[i][j] = z_list[j]`
and `ygrid[i][j] = gama[0][i]`; the value grid is `p_mat_numerical.T`. -/
def numericalSurface (s : FlowState) : Surface where
  src := PressureSource.numerical
  xgrid := fun _ j => s.z_list j
  ygrid := fun i _ => s.gama 0 i
  zgrid := transposeM s.p_mat_numerical

/-- The analytical surface of `plot_pressure_surface` (lines 657-679). -/
def analyticalSurface (s : FlowState) : Surface where
  src := PressureSource.analytical
  xgrid := fun _ j => s.z_list j
  ygrid := fun i _ => s.gama 0 i
  zgrid := transposeM s.p_mat_analytical

/-- Surfaces added by `plot_pressure_surface`: one per available source,
numerical first. -/
def surfaceList (s : FlowState) : List Surface :=
  (if s.numerical_pressure_matrix_available then [numericalSurface s] else []) ++
  (if s.analytical_pressure_matrix_available then [analyticalSurface s] else [])

/-- Embedding of `plot_pressure_surface` (lines 594-713): guard on the two
availability flags (lines 620-627), then one surface per available
source. -/
def plot_pressure_surface (s : FlowState) : Except PlotError (List Surface) :=
  if !s.numerical_pressure_matrix_available && !s.analytical_pressure_matrix_available then
    Except.error PlotError.missingPressureData
  else
    Except.ok (surfaceList s)

/-! ### Helper lemmas about `amin` and `linspace` -/

/-- The running minimum is a lower bound for every entry it covers. -/
theorem amin_le (f : Nat → ℝ) : ∀ n i, i < n → amin f n ≤ f i := by
  intro n
  induction n with
  | zero => intro i h; exact absurd h (Nat.not_lt_zero i)
  | succ n ih =>
    intro i h
    rcases Nat.lt_succ_iff_lt_or_eq.mp h with h1 | h1
    · calc amin f (n + 1) ≤ amin f n := by simp only [amin]; exact min_le_left _ _
        _ ≤ f i := ih i h1
    · subst h1
      simp only [amin]
      exact min_le_right _ _

/-- The running minimum is attained by some covered entry. -/
theorem amin_exists (f : Nat → ℝ) : ∀ n, 0 < n → ∃ i, i < n ∧ amin f n = f i := by
  intro n
  induction n with
  | zero => intro h; exact absurd h (lt_irrefl 0)
  | succ n ih =>
    intro _
    by_cases hn : n = 0
    · subst hn
      refine ⟨0, Nat.zero_lt_one, ?_⟩
      simp [amin]
    · rcases ih (Nat.pos_of_ne_zero hn) with ⟨i, hi, hEq⟩
      rcases le_total (amin f n) (f n) with h | h
      · refine ⟨i, Nat.lt_succ_of_lt hi, ?_⟩
        simp only [amin]
        rw [min_eq_left h, hEq]
      · refine ⟨n, Nat.lt_succ_self n, ?_⟩
        simp only [amin]
        exact min_eq_right h

/-- The first linspace sample is the left endpoint. -/
theorem linspace_zero (a b : ℝ) (n : Nat) : linspace a b n 0 = a := by
  simp [linspace]

/-- With at least two samples, the last linspace sample is the right
endpoint. -/
theorem linspace_last (a b : ℝ) (n : Nat) (h : 2 ≤ n) :
    linspace a b n (n - 1) = b := by
  have h1 : ((n - 1 : Nat) : ℝ) = (n : ℝ) - 1 := by
    have : (1 : Nat) ≤ n := le_trans one_le_two h
    push_cast [this]
    ring
  have h2 : (n : ℝ) - 1 ≠ 0 := by
    have : (2 : ℝ) ≤ (n : ℝ) := by exact_mod_cast h
    intro hc
    linarith
  rw [linspace, h1]
  field_simp

/-- Consecutive linspace samples differ by the constant step
`(b - a) / (n - 1)`. -/
theorem linspace_step (a b : ℝ) (n : Nat) (k : Nat) :
    linspace a b n (k + 1) - linspace a b n k = (b - a) / ((n : ℝ) - 1) := by
  simp only [linspace]
  push_cast
  ring

/-! ### Concrete Flow States used as witnesses and counterexamples -/

/-- A simple Flow State with both pressure matrices available: 2×2 grids,
rotor radius 1, stator radius 2, all coordinate arrays zero. -/
noncomputable def sBoth : FlowState where
  nz := 2
  ntheta := 2
  nradius := 2
  dtheta := 1
  radius_rotor := 1
  radius_stator := 2
  attitude_angle := 0
  z_list := fun _ => 0
  xre := fun _ _ => 0
  yre := fun _ _ => 0
  xri := fun _ _ => 0
  yri := fun _ _ => 0
  xi := 0
  yi := 0
  re := fun _ _ => 2
  ri := fun _ _ => 1
  gama := fun _ _ => 0
  p_mat_numerical := fun _ _ => 3
  p_mat_analytical := fun _ _ => 7
  numerical_pressure_matrix_available := true
  analytical_pressure_matrix_available := true

/-- `sBoth` with only the numerical matrix available. -/
noncomputable def sNum : FlowState :=
  { sBoth with analytical_pressure_matrix_available := false }

/-- `sBoth` with only the analytical matrix available. -/
noncomputable def sAna : FlowState :=
  { sBoth with numerical_pressure_matrix_available := false }

/-- `sBoth` with neither matrix available. -/
noncomputable def sNone : FlowState :=
  { sBoth with
    numerical_pressure_matrix_available := false
    analytical_pressure_matrix_available := false }

/-- `sBoth` with a single angular sample (`ntheta = 1`); rotor boundary at
the origin, constant numerical pressure 3. -/
noncomputable def sW : FlowState :=
  { sBoth with ntheta := 1 }

/-- `sBoth` with a single radial sample (`nradius = 1`). -/
noncomputable def sCyl5 : FlowState :=
  { sBoth with nradius := 1 }

/-- A Flow State refuting the minimum-shift part of the cylindrical-mapping
claim: one radial sample (`nradius = 1`, allowed by the spec's degenerate
edge case) at `r = radius_rotor = 1`; pressure slice `[0, 5]` with only the
numerical matrix available; the rotor boundary sits at distance `3/2` at
the angle of minimal pressure (an eccentric rotor surface point between the
mesh radius and the stator) and at distance `1` at the other angle.  The
cell at the minimal-pressure angle is therefore masked, and the only
unmasked cell carries `5 - 0 + 0.01 = 5.01`. -/
noncomputable def sC2 : FlowState :=
  { sBoth with
    nradius := 1
    xri := fun _ i => if i = 0 then 3 / 2 else 1
    yri := fun _ _ => 0
    p_mat_numerical := fun _ i => if i = 0 then 0 else 5
    analytical_pressure_matrix_available := false }

/-! ### Claim theorems -/

/-- C1: for every Flow State in which neither pressure matrix is available,
all four pressure-dependent transforms (`plot_pressure_z`,
`plot_pressure_theta`, `plot_pressure_theta_cylindrical`,
`plot_pressure_surface`) raise `MissingPressureDataError` and produce no
output; when at least one matrix is available, none of them raises this
error (each returns its assembled data). -/
theorem missing_pressure_guard (s : FlowState) (theta z : Nat) (b : Bool) :
    (s.numerical_pressure_matrix_available = false ∧
     s.analytical_pressure_matrix_available = false →
      plot_pressure_z s theta = Except.error PlotError.missingPressureData ∧
      plot_pressure_theta s z = Except.error PlotError.missingPressureData ∧
      plot_pressure_theta_cylindrical s z b = Except.error PlotError.missingPressureData ∧
      plot_pressure_surface s = Except.error PlotError.missingPressureData) ∧
    (s.numerical_pressure_matrix_available = true ∨
     s.analytical_pressure_matrix_available = true →
      plot_pressure_z s theta = Except.ok (pressureZCurves s theta) ∧
      plot_pressure_theta s z = Except.ok (pressureThetaCurves s z) ∧
      plot_pressure_theta_cylindrical s z b = Except.ok (cylMesh s z b) ∧
      plot_pressure_surface s = Except.ok (surfaceList s)) := by
  constructor
  · rintro ⟨h1, h2⟩
    refine ⟨?_, ?_, ?_, ?_⟩ <;>
      simp [plot_pressure_z, plot_pressure_theta, plot_pressure_theta_cylindrical,
        plot_pressure_surface, h1, h2]
  · rintro (h | h) <;>
      refine ⟨?_, ?_, ?_, ?_⟩ <;>
        simp [plot_pressure_z, plot_pressure_theta, plot_pressure_theta_cylindrical,
          plot_pressure_surface, h]

/-- Witness for C1: the guard fires on a concrete state with no pressure
matrix and stays silent on one with the numerical matrix available. -/
theorem missing_pressure_guard_witness :
    (sNone.numerical_pressure_matrix_available = false ∧
     sNone.analytical_pressure_matrix_available = false) ∧
    plot_pressure_z sNone 0 = Except.error PlotError.missingPressureData ∧
    sNum.numerical_pressure_matrix_available = true ∧
    plot_pressure_theta_cylindrical sNum 0 true = Except.ok (cylMesh sNum 0 true) := by
  have hN : sNone.numerical_pressure_matrix_available = false ∧
      sNone.analytical_pressure_matrix_available = false := ⟨rfl, rfl⟩
  have hA : sNum.numerical_pressure_matrix_available = true := rfl
  exact ⟨hN, ((missing_pressure_guard sNone 0 0 true).1 hN).1, hA,
    ((missing_pressure_guard sNum 0 0 true).2 (Or.inl hA)).2.2.1⟩

/-- C3: when exactly one pressure source is available, every
pressure-dependent transform uses that source and completes without
raising, for both values of the `from_numerical` flag and for the
transforms that take no flag. -/
theorem single_source_fallback (s : FlowState) (theta z : Nat) (b : Bool) :
    (s.numerical_pressure_matrix_available = true ∧
     s.analytical_pressure_matrix_available = false →
      selectPMat s b = s.p_mat_numerical ∧
      plot_pressure_z s theta =
        Except.ok [{ src := PressureSource.numerical, x := s.z_list,
                     y := fun zz => s.p_mat_numerical zz theta }] ∧
      plot_pressure_theta s z =
        Except.ok [{ src := PressureSource.numerical, x := s.gama z,
                     y := s.p_mat_numerical z }] ∧
      plot_pressure_surface s = Except.ok [numericalSurface s] ∧
      plot_pressure_theta_cylindrical s z b = Except.ok (cylMesh s z b)) ∧
    (s.numerical_pressure_matrix_available = false ∧
     s.analytical_pressure_matrix_available = true →
      selectPMat s b = s.p_mat_analytical ∧
      plot_pressure_z s theta =
        Except.ok [{ src := PressureSource.analytical, x := s.z_list,
                     y := fun zz => s.p_mat_analytical zz theta }] ∧
      plot_pressure_theta s z =
        Except.ok [{ src := PressureSource.analytical, x := s.gama z,
                     y := s.p_mat_analytical z }] ∧
      plot_pressure_surface s = Except.ok [analyticalSurface s] ∧
      plot_pressure_theta_cylindrical s z b = Except.ok (cylMesh s z b)) := by
  constructor
  · rintro ⟨h1, h2⟩
    refine ⟨?_, ?_, ?_, ?_, ?_⟩
    · cases b <;> simp [selectPMat, h1, h2]
    · simp [plot_pressure_z, pressureZCurves, h1, h2]
    · simp [plot_pressure_theta, pressureThetaCurves, h1, h2]
    · simp [plot_pressure_surface, surfaceList, h1, h2]
    · simp [plot_pressure_theta_cylindrical, h1, h2]
  · rintro ⟨h1, h2⟩
    refine ⟨?_, ?_, ?_, ?_, ?_⟩
    · cases b <;> simp [selectPMat, h1, h2]
    · simp [plot_pressure_z, pressureZCurves, h1, h2]
    · simp [plot_pressure_theta, pressureThetaCurves, h1, h2]
    · simp [plot_pressure_surface, surfaceList, h1, h2]
    · simp [plot_pressure_theta_cylindrical, h1, h2]

/-- Witness for C3: evaluated on concrete single-source states, for both
values of the preference flag. -/
theorem single_source_fallback_witness :
    (sNum.numerical_pressure_matrix_available = true ∧
     sNum.analytical_pressure_matrix_available = false) ∧
    selectPMat sNum false = sNum.p_mat_numerical ∧
    (sAna.numerical_pressure_matrix_available = false ∧
     sAna.analytical_pressure_matrix_available = true) ∧
    selectPMat sAna true = sAna.p_mat_analytical ∧
    plot_pressure_surface sAna = Except.ok [analyticalSurface sAna] := by
  have hN : sNum.numerical_pressure_matrix_available = true ∧
      sNum.analytical_pressure_matrix_available = false := ⟨rfl, rfl⟩
  have hA : sAna.numerical_pressure_matrix_available = false ∧
      sAna.analytical_pressure_matrix_available = true := ⟨rfl, rfl⟩
  exact ⟨hN, ((single_source_fallback sNum 0 0 false).1 hN).1, hA,
    ((single_source_fallback sAna 0 0 true).2 hA).1,
    ((single_source_fallback sAna 0 0 true).2 hA).2.2.2.1⟩

/-- C6: `plot_pressure_theta` produces exactly one curve: the numerical
curve `(gama[z], p_mat_numerical[z])` whenever the numerical matrix is
available (even if both are), and the analytical curve only when the
numerical matrix is unavailable. -/
theorem theta_cut_single_curve (s : FlowState) (z : Nat) :
    (s.numerical_pressure_matrix_available = true →
      plot_pressure_theta s z =
        Except.ok [{ src := PressureSource.numerical, x := s.gama z,
                     y := s.p_mat_numerical z }]) ∧
    (s.numerical_pressure_matrix_available = false →
      s.analytical_pressure_matrix_available = true →
      plot_pressure_theta s z =
        Except.ok [{ src := PressureSource.analytical, x := s.gama z,
                     y := s.p_mat_analytical z }]) := by
  constructor
  · intro h1
    simp [plot_pressure_theta, pressureThetaCurves, h1]
  · intro h1 h2
    simp [plot_pressure_theta, pressureThetaCurves, h1, h2]

/-- Witness for C6: with both matrices available only the numerical curve
is produced; with only the analytical matrix, only the analytical curve. -/
theorem theta_cut_single_curve_witness :
    sBoth.numerical_pressure_matrix_available = true ∧
    sBoth.analytical_pressure_matrix_available = true ∧
    plot_pressure_theta sBoth 0 =
      Except.ok [{ src := PressureSource.numerical, x := sBoth.gama 0,
                   y := sBoth.p_mat_numerical 0 }] ∧
    sAna.numerical_pressure_matrix_available = false ∧
    plot_pressure_theta sAna 0 =
      Except.ok [{ src := PressureSource.analytical, x := sAna.gama 0,
                   y := sAna.p_mat_analytical 0 }] := by
  exact ⟨rfl, rfl, (theta_cut_single_curve sBoth 0).1 rfl, rfl,
    (theta_cut_single_curve sAna 0).2 rfl rfl⟩

/-- C4 (code bug): when the requested source is unavailable and the other
one is available, `plot_pressure_theta_cylindrical` proceeds using the
alternative matrix, but the function body contains no warning emission at
all — contradicting its own docstring ("it will take the one that is
available and raise a warning") and the claim.  Evaluated at the failing
input `from_numerical = True` with only the analytical matrix available. -/
theorem fallback_emits_no_warning :
    sAna.numerical_pressure_matrix_available = false ∧
    sAna.analytical_pressure_matrix_available = true ∧
    plot_pressure_theta_cylindrical sAna 0 true = Except.ok (cylMesh sAna 0 true) ∧
    selectPMat sAna true = sAna.p_mat_analytical ∧
    (cylMesh sAna 0 true).warnings = [] := by
  exact ⟨rfl, rfl, rfl, rfl, rfl⟩

/-- C7: in `plot_pressure_surface`, each surface's independent axes are
built from `z_list` and the angular reference row `gama[0]`, the value grid
is the transposed pressure matrix, the value grid transposed back equals
the original matrix, and when both sources are available two independent
surfaces are produced. -/
theorem surface_transpose_roundtrip (s : FlowState) :
    (numericalSurface s).xgrid = (fun _ j => s.z_list j) ∧
    (numericalSurface s).ygrid = (fun i _ => s.gama 0 i) ∧
    (numericalSurface s).zgrid = transposeM s.p_mat_numerical ∧
    transposeM (numericalSurface s).zgrid = s.p_mat_numerical ∧
    (analyticalSurface s).xgrid = (fun _ j => s.z_list j) ∧
    (analyticalSurface s).ygrid = (fun i _ => s.gama 0 i) ∧
    (analyticalSurface s).zgrid = transposeM s.p_mat_analytical ∧
    transposeM (analyticalSurface s).zgrid = s.p_mat_analytical ∧
    (s.numerical_pressure_matrix_available = true →
      s.analytical_pressure_matrix_available = true →
      plot_pressure_surface s =
        Except.ok [numericalSurface s, analyticalSurface s]) := by
  refine ⟨rfl, rfl, rfl, rfl, rfl, rfl, rfl, rfl, ?_⟩
  intro h1 h2
  simp [plot_pressure_surface, surfaceList, h1, h2]

/-- Witness for C7: evaluated on a concrete state with both matrices
available, producing the two surfaces and the transpose round trip. -/
theorem surface_transpose_roundtrip_witness :
    sBoth.numerical_pressure_matrix_available = true ∧
    sBoth.analytical_pressure_matrix_available = true ∧
    transposeM (numericalSurface sBoth).zgrid = sBoth.p_mat_numerical ∧
    plot_pressure_surface sBoth =
      Except.ok [numericalSurface sBoth, analyticalSurface sBoth] := by
  exact ⟨rfl, rfl, (surface_transpose_roundtrip sBoth).2.2.2.1,
    (surface_transpose_roundtrip sBoth).2.2.2.2.2.2.2.2 rfl rfl⟩

/-- C8: the angular-axis rotation offset produced by
`plot_pressure_theta_cylindrical` equals `-90` degrees minus the attitude
angle converted to degrees, for every Flow State. -/
theorem cyl_rotation_offset (s : FlowState) (z : Nat) (b : Bool) :
    (cylMesh s z b).rotation = -90 - s.attitude_angle * 180 / Real.pi ∧
    (s.numerical_pressure_matrix_available = true ∨
     s.analytical_pressure_matrix_available = true →
      plot_pressure_theta_cylindrical s z b = Except.ok (cylMesh s z b)) := by
  refine ⟨rfl, ?_⟩
  rintro (h | h) <;> simp [plot_pressure_theta_cylindrical, h]

/-- Witness for C8: on a concrete state with attitude angle `0` the
produced rotation evaluates to `-90` degrees. -/
theorem cyl_rotation_offset_witness :
    sNum.numerical_pressure_matrix_available = true ∧
    plot_pressure_theta_cylindrical sNum 0 true = Except.ok (cylMesh sNum 0 true) ∧
    (cylMesh sNum 0 true).rotation = -90 := by
  refine ⟨rfl, (cyl_rotation_offset sNum 0 true).2 (Or.inl rfl), ?_⟩
  rw [(cyl_rotation_offset sNum 0 true).1]
  show (-90 : ℝ) - 0 * 180 / Real.pi = -90
  simp

/-- C9: the cylindrical mesh is deterministic.  The embedding is a pure
function, so this is stated as noninterference: two Flow States agreeing on
every field the mesh construction reads (grid sizes, radii, `dtheta`, the
rotor boundary arrays, the pressure matrices and availability flags)
produce identical `r_matrix`, `theta_matrix` and `z_matrix`, whatever their
other fields. -/
theorem cyl_mesh_deterministic (s1 s2 : FlowState) (z : Nat) (b : Bool)
    (h1 : s1.ntheta = s2.ntheta) (h2 : s1.nradius = s2.nradius)
    (h3 : s1.radius_rotor = s2.radius_rotor)
    (h4 : s1.radius_stator = s2.radius_stator)
    (h5 : s1.dtheta = s2.dtheta) (h6 : s1.xri = s2.xri) (h7 : s1.yri = s2.yri)
    (h8 : s1.p_mat_numerical = s2.p_mat_numerical)
    (h9 : s1.p_mat_analytical = s2.p_mat_analytical)
    (h10 : s1.numerical_pressure_matrix_available =
      s2.numerical_pressure_matrix_available)
    (h11 : s1.analytical_pressure_matrix_available =
      s2.analytical_pressure_matrix_available) :
    (cylMesh s1 z b).r_matrix = (cylMesh s2 z b).r_matrix ∧
    (cylMesh s1 z b).theta_matrix = (cylMesh s2 z b).theta_matrix ∧
    (cylMesh s1 z b).z_matrix = (cylMesh s2 z b).z_matrix := by
  refine ⟨?_, ?_, ?_⟩ <;> funext i j <;>
    simp only [cylMesh, cylZMatrix, cylR, cylThetaDeg, cylThetaRaw, innerRadius,
      selectPMat, linspace, h1, h2, h3, h4, h5, h6, h7, h8, h9, h10, h11]

/-- Witness for C9: applied to one concrete state against itself. -/
theorem cyl_mesh_deterministic_witness :
    (cylMesh sBoth 0 true).r_matrix = (cylMesh sBoth 0 true).r_matrix ∧
    (cylMesh sBoth 0 true).theta_matrix = (cylMesh sBoth 0 true).theta_matrix ∧
    (cylMesh sBoth 0 true).z_matrix = (cylMesh sBoth 0 true).z_matrix :=
  cyl_mesh_deterministic sBoth sBoth 0 true rfl rfl rfl rfl rfl rfl rfl rfl rfl
    rfl rfl

/-- C10: the geometry-only transforms `plot_eccentricity` and `plot_shape`
impose no pressure-availability precondition: for every Flow State
(including one with no pressure matrix) they return their geometry data
without raising, and their output depends only on the geometry fields
`xre`, `yre`, `xri`, `yri`, `xi`, `yi`, `z_list`, `re`, `ri`. -/
theorem geometry_plots_no_pressure_precondition (s : FlowState) (z theta : Nat) :
    plot_eccentricity s z =
      Except.ok { stator_x := s.xre z, stator_y := s.yre z, rotor_x := s.xri z,
                  rotor_y := s.yri z, stator_center := (s.xi, s.yi),
                  rotor_center := ((0 : ℝ), (0 : ℝ)) } ∧
    plot_shape s theta =
      Except.ok { stator_curve_x := s.z_list,
                  stator_curve_y := fun zz => s.re zz theta,
                  rotor_curve_x := s.z_list,
                  rotor_curve_y := fun zz => s.ri zz theta } ∧
    (∀ s2 : FlowState, s.xre = s2.xre → s.yre = s2.yre → s.xri = s2.xri →
      s.yri = s2.yri → s.xi = s2.xi → s.yi = s2.yi → s.z_list = s2.z_list →
      s.re = s2.re → s.ri = s2.ri →
      plot_eccentricity s z = plot_eccentricity s2 z ∧
      plot_shape s theta = plot_shape s2 theta) := by
  refine ⟨rfl, rfl, ?_⟩
  intro s2 g1 g2 g3 g4 g5 g6 g7 g8 g9
  constructor <;>
    simp only [plot_eccentricity, plot_shape, g1, g2, g3, g4, g5, g6, g7, g8, g9]

/-- Witness for C10: evaluated on a concrete state with neither pressure
matrix available; both geometry plots still return their data. -/
theorem geometry_plots_no_pressure_precondition_witness :
    sNone.numerical_pressure_matrix_available = false ∧
    sNone.analytical_pressure_matrix_available = false ∧
    plot_eccentricity sNone 0 =
      Except.ok { stator_x := sNone.xre 0, stator_y := sNone.yre 0,
                  rotor_x := sNone.xri 0, rotor_y := sNone.yri 0,
                  stator_center := (sNone.xi, sNone.yi),
                  rotor_center := ((0 : ℝ), (0 : ℝ)) } ∧
    plot_shape sNone 0 =
      Except.ok { stator_curve_x := sNone.z_list,
                  stator_curve_y := fun zz => sNone.re zz 0,
                  rotor_curve_x := sNone.z_list,
                  rotor_curve_y := fun zz => sNone.ri zz 0 } := by
  exact ⟨rfl, rfl, (geometry_plots_no_pressure_precondition sNone 0 0).1,
    (geometry_plots_no_pressure_precondition sNone 0 0).2.1⟩

/-- C2 (amended): in the cylindrical mapping, for valid indices
`i < ntheta`, `j < nradius`: a cell with `r[j] < inner_radius(i)` is exactly
`0`; a cell with `r[j] >= inner_radius(i)` equals
`pressure_along_theta[i] - min_pressure + 0.01`, hence is `>= 0.01`; and —
provided `nradius >= 2` and every angular sample's rotor boundary lies
within the stator radius — some unmasked cell equals exactly `0.01`, so the
minimum over all unmasked cells is exactly `0.01`. -/
theorem cyl_masking_amended (s : FlowState) (z : Nat) (b : Bool) (i j : Nat) :
    (i < s.ntheta → j < s.nradius →
      (cylR s j < innerRadius s z i → cylZMatrix s z b i j = 0) ∧
      (¬ cylR s j < innerRadius s z i →
        cylZMatrix s z b i j =
          selectPMat s b z i - amin (selectPMat s b z) s.ntheta + 0.01 ∧
        0.01 ≤ cylZMatrix s z b i j)) ∧
    (2 ≤ s.nradius →
      (∀ k, k < s.ntheta → innerRadius s z k ≤ s.radius_stator) →
      0 < s.ntheta →
      ∃ i2 j2, i2 < s.ntheta ∧ j2 < s.nradius ∧
        ¬ cylR s j2 < innerRadius s z i2 ∧ cylZMatrix s z b i2 j2 = 0.01) := by
  constructor
  · intro hi hj
    constructor
    · intro hlt
      simp only [cylZMatrix]
      rw [if_pos ⟨hi, hj⟩, if_pos hlt]
    · intro hge
      have heq : cylZMatrix s z b i j =
          selectPMat s b z i - amin (selectPMat s b z) s.ntheta + 0.01 := by
        simp only [cylZMatrix]
        rw [if_pos ⟨hi, hj⟩, if_neg hge]
      refine ⟨heq, ?_⟩
      rw [heq]
      have hmin : amin (selectPMat s b z) s.ntheta ≤ selectPMat s b z i :=
        amin_le _ _ _ hi
      linarith
  · intro hnr hinner hnt
    rcases amin_exists (selectPMat s b z) s.ntheta hnt with ⟨i2, hi2, hmin⟩
    have hr : cylR s (s.nradius - 1) = s.radius_stator :=
      linspace_last _ _ _ hnr
    have hmask : ¬ cylR s (s.nradius - 1) < innerRadius s z i2 := by
      rw [hr]
      exact not_lt.mpr (hinner i2 hi2)
    refine ⟨i2, s.nradius - 1, hi2, by omega, hmask, ?_⟩
    simp only [cylZMatrix]
    rw [if_pos ⟨hi2, by omega⟩, if_neg hmask, hmin]
    ring

/-- Counterexample for C2 as stated: in `sC2` the only unmasked cell is at
angular index 1 with value `5.01`, while the cell at the minimal-pressure
angle (index 0) is masked; the minimum over all unmasked cells is therefore
`5.01`, not `0.01`.  The grid has exactly the two cells `(0,0)` and `(1,0)`. -/
theorem cyl_min_unmasked_counterexample :
    sC2.ntheta = 2 ∧ sC2.nradius = 1 ∧
    cylR sC2 0 < innerRadius sC2 0 0 ∧
    cylZMatrix sC2 0 true 0 0 = 0 ∧
    ¬ cylR sC2 0 < innerRadius sC2 0 1 ∧
    cylZMatrix sC2 0 true 1 0 = 5.01 ∧
    (5.01 : ℝ) ≠ 0.01 := by
  have hr0 : cylR sC2 0 = 1 := by
    simp [cylR, linspace, sC2, sBoth]
  have hi0 : innerRadius sC2 0 0 = 3 / 2 := by
    have h1 : sC2.xri 0 0 * sC2.xri 0 0 + sC2.yri 0 0 * sC2.yri 0 0 =
        ((3 : ℝ) / 2) ^ 2 := by
      norm_num [sC2, sBoth]
    simp only [innerRadius]
    rw [h1, Real.sqrt_sq (by norm_num : (0 : ℝ) ≤ 3 / 2)]
  have hi1 : innerRadius sC2 0 1 = 1 := by
    have h1 : sC2.xri 0 1 * sC2.xri 0 1 + sC2.yri 0 1 * sC2.yri 0 1 = 1 := by
      norm_num [sC2, sBoth]
    simp only [innerRadius]
    rw [h1, Real.sqrt_one]
  have hlt : cylR sC2 0 < innerRadius sC2 0 0 := by
    rw [hr0, hi0]; norm_num
  have hge : ¬ cylR sC2 0 < innerRadius sC2 0 1 := by
    rw [hr0, hi1]; norm_num
  have hamin : amin (selectPMat sC2 true 0) sC2.ntheta = 0 := by
    show amin (selectPMat sC2 true 0) 2 = 0
    have hf0 : selectPMat sC2 true 0 0 = 0 := by
      norm_num [selectPMat, sC2, sBoth]
    have hf1 : selectPMat sC2 true 0 1 = 5 := by
      norm_num [selectPMat, sC2, sBoth]
    simp only [amin, hf0, hf1, min_self]
    norm_num [min_eq_left]
  refine ⟨rfl, rfl, hlt, ?_, hge, ?_, by norm_num⟩
  · simp only [cylZMatrix]
    rw [if_pos ⟨by decide, by decide⟩, if_pos hlt]
  · simp only [cylZMatrix]
    rw [if_pos ⟨by decide, by decide⟩, if_neg hge, hamin]
    have hf1 : selectPMat sC2 true 0 1 = 5 := by
      norm_num [selectPMat, sC2, sBoth]
    rw [hf1]
    norm_num

/-- Witness for C2 (amended): on `sW` (`nradius = 2`, `ntheta = 1`, rotor
boundary at the origin) the hypotheses hold and an unmasked cell with value
exactly `0.01` exists; the cell `(0, 0)` is unmasked with value
`3 - 3 + 0.01`. -/
theorem cyl_masking_amended_witness :
    2 ≤ sW.nradius ∧ 0 < sW.ntheta ∧
    (∃ i2 j2, i2 < sW.ntheta ∧ j2 < sW.nradius ∧
      ¬ cylR sW j2 < innerRadius sW 0 i2 ∧ cylZMatrix sW 0 true i2 j2 = 0.01) := by
  have hinner : ∀ k, k < sW.ntheta → innerRadius sW 0 k ≤ sW.radius_stator := by
    intro k _
    have h1 : sW.xri 0 k * sW.xri 0 k + sW.yri 0 k * sW.yri 0 k = 0 := by
      norm_num [sW, sBoth]
    have h2 : innerRadius sW 0 k = 0 := by
      simp only [innerRadius]
      rw [h1, Real.sqrt_zero]
    rw [h2]
    show (0 : ℝ) ≤ sBoth.radius_stator
    norm_num [sBoth]
  exact ⟨by decide, by decide,
    (cyl_masking_amended sW 0 true 0 0).2 (by decide) hinner (by decide)⟩

/-- C5 (amended): the radial sample set is `nradius` evenly spaced values
starting at `radius_rotor`, reaching `radius_stator` when `nradius >= 2`
(a single value at `radius_rotor` when `nradius = 1`), with constant step
`(radius_stator - radius_rotor) / (nradius - 1)`; the angular sample set is
`ntheta` evenly spaced values over the CLOSED interval `[0, 2π + dtheta/2]`
(the right endpoint is attained when `ntheta >= 2`, since `np.linspace`
includes its endpoint), with constant step
`(2π + dtheta/2) / (ntheta - 1)`, subsequently converted to degrees by
multiplying by `180/π`. -/
theorem cyl_sampling_amended (s : FlowState) (j i : Nat) :
    cylR s 0 = s.radius_rotor ∧
    (2 ≤ s.nradius → cylR s (s.nradius - 1) = s.radius_stator) ∧
    cylR s (j + 1) - cylR s j =
      (s.radius_stator - s.radius_rotor) / ((s.nradius : ℝ) - 1) ∧
    cylThetaRaw s 0 = 0 ∧
    (2 ≤ s.ntheta →
      cylThetaRaw s (s.ntheta - 1) = 2 * Real.pi + s.dtheta / 2) ∧
    cylThetaRaw s (i + 1) - cylThetaRaw s i =
      (2 * Real.pi + s.dtheta / 2) / ((s.ntheta : ℝ) - 1) ∧
    cylThetaDeg s i = cylThetaRaw s i * (180 / Real.pi) := by
  refine ⟨linspace_zero _ _ _, fun h => linspace_last _ _ _ h,
    linspace_step _ _ _ _, ?_, fun h => ?_, ?_, rfl⟩
  · exact linspace_zero _ _ _
  · exact linspace_last _ _ _ h
  · have := linspace_step 0 (2 * Real.pi + s.dtheta / 2) s.ntheta i
    simpa using this

/-- Counterexample for C5 as stated: the angular samples are claimed to lie
in the half-open interval `[0, 2π + dtheta/2)`, but `np.linspace` includes
its endpoint: in `sCyl5` (with `ntheta = 2`) the angular sample at index 1
equals `2π + dtheta/2` and is therefore not in the half-open interval.
Moreover with `nradius = 1` the radial sample set is the single value
`radius_rotor`, so it does not include the endpoint `radius_stator`. -/
theorem cyl_sampling_counterexample :
    1 < sCyl5.ntheta ∧
    ¬ cylThetaRaw sCyl5 1 < 2 * Real.pi + sCyl5.dtheta / 2 ∧
    sCyl5.nradius = 1 ∧
    cylR sCyl5 0 = sCyl5.radius_rotor ∧
    sCyl5.radius_rotor ≠ sCyl5.radius_stator := by
  have hth : cylThetaRaw sCyl5 1 = 2 * Real.pi + sCyl5.dtheta / 2 := by
    show linspace 0 (2 * Real.pi + sCyl5.dtheta / 2) sCyl5.ntheta 1 =
      2 * Real.pi + sCyl5.dtheta / 2
    have h2 : sCyl5.ntheta = 2 := rfl
    rw [h2, linspace]
    norm_num
  refine ⟨by decide, ?_, rfl, linspace_zero _ _ _, ?_⟩
  · rw [hth]
    exact lt_irrefl _
  · show (1 : ℝ) ≠ 2
    norm_num

/-- Witness for C5 (amended): evaluated on `sBoth` (`nradius = ntheta = 2`,
rotor radius 1, stator radius 2, `dtheta = 1`): the radial endpoints are
attained and the last angular sample equals `2π + 1/2`. -/
theorem cyl_sampling_amended_witness :
    2 ≤ sBoth.nradius ∧ 2 ≤ sBoth.ntheta ∧
    cylR sBoth 0 = sBoth.radius_rotor ∧
    cylR sBoth (sBoth.nradius - 1) = sBoth.radius_stator ∧
    cylThetaRaw sBoth (sBoth.ntheta - 1) = 2 * Real.pi + sBoth.dtheta / 2 ∧
    cylThetaDeg sBoth 0 = cylThetaRaw sBoth 0 * (180 / Real.pi) := by
  refine ⟨by decide, by decide, (cyl_sampling_amended sBoth 0 0).1,
    (cyl_sampling_amended sBoth 0 0).2.1 (by decide),
    (cyl_sampling_amended sBoth 0 0).2.2.2.2.1 (by decide),
    (cyl_sampling_amended sBoth 0 0).2.2.2.2.2.2⟩
